import Mathlib

/-!
Shallow embedding of the RAGnosis bot (src/main.py): the message dispatch of
class `UltimateRagnosisAI` across its five conversation states, its per-user
conversation memory, prompt construction, and the JSON data loading.
External collaborators (the Telegram transport, the Gemini model, the
Wikipedia API, the clock and the disk) are modelled as oracle fields of
`Env`; the Python functions themselves are translated directly.
-/

namespace Ragnosis

set_option maxRecDepth 100000

/-- Python `str.lower`, modelled character-wise over the character list (so
that concrete instances evaluate inside the kernel). -/
def pyLower (s : String) : String := String.mk (s.data.map Char.toLower)

/-- Python `str.strip`: drop whitespace from both ends, over the character
list. -/
def pyStrip (s : String) : String :=
  String.mk
    (((s.data.dropWhile Char.isWhitespace).reverse.dropWhile Char.isWhitespace).reverse)

/-- A Python dict key as it occurs in `user_profiles`: `load_data`
(src/main.py lines 67-86) restores JSON keys as strings, while runtime code
indexes the dict with the integer Telegram user id. -/
inductive PyKey where
  | pstr (s : String)
  | pint (n : Int)
deriving DecidableEq, Repr

/-- Association-list model of a Python dict (insertion ordered). -/
def alookup {α β : Type} [DecidableEq α] (k : α) : List (α × β) → Option β
  | [] => none
  | (a, b) :: t => if a = k then some b else alookup k t

/-- `d[k] = v` on a Python dict: replace in place, or append when absent. -/
def aset {α β : Type} [DecidableEq α] (k : α) (v : β) : List (α × β) → List (α × β)
  | [] => [(k, v)]
  | (a, b) :: t => if a = k then (k, v) :: t else (a, b) :: aset k v t

/-- One saved conversation turn, the dict appended by `save_conversation`
(src/main.py lines 143-148). -/
structure ConvEntry where
  user : String
  ai : String
  timestamp : String
  type : String
deriving DecidableEq, Repr

/-- `save_conversation` (src/main.py lines 138-156), the per-user list part:
append the new turn, then `if len > 50` keep only the last 50 (`[-50:]`).
The periodic `save_data` disk write is an external effect, not modelled. -/
def save_conversation (log : List ConvEntry) (e : ConvEntry) : List ConvEntry :=
  let log' := log ++ [e]
  if 50 < log'.length then log'.drop (log'.length - 50) else log'

theorem take_append_take {α : Type} (n : ℕ) (a b : List α) :
    List.take n (a ++ List.take n b) = List.take n (a ++ b) := by
  rw [List.take_append_eq_append_take, List.take_take,
    min_eq_left (Nat.sub_le n a.length), List.take_append_eq_append_take]

theorem rtake_append_rtake {α : Type} (n : ℕ) (l m : List α) :
    (List.rtake l n ++ m).rtake n = (l ++ m).rtake n := by
  simp only [List.rtake_eq_reverse_take_reverse, List.reverse_append,
    List.reverse_reverse]
  rw [take_append_take]

theorem length_rtake {α : Type} (l : List α) (n : ℕ) :
    (l.rtake n).length = min n l.length := by
  simp only [List.rtake, List.length_drop]
  omega

theorem rtake_of_le {α : Type} {l : List α} {n : ℕ} (h : l.length ≤ n) :
    l.rtake n = l := by
  simp [List.rtake, Nat.sub_eq_zero_of_le h]

theorem save_conversation_eq_rtake (log : List ConvEntry) (e : ConvEntry) :
    save_conversation log e = (log ++ [e]).rtake 50 := by
  unfold save_conversation
  by_cases h : 50 < (log ++ [e]).length
  · simp only [h, if_true, List.rtake]
  · simp only [h, if_false, rtake_of_le (Nat.le_of_not_lt h)]

theorem foldl_save_eq_rtake (es : List ConvEntry) :
    ∀ acc : List ConvEntry, acc.length ≤ 50 →
      es.foldl save_conversation acc = (acc ++ es).rtake 50 := by
  induction es with
  | nil =>
      intro acc h
      simp [rtake_of_le h]
  | cons e es ih =>
      intro acc h
      have hlen : (save_conversation acc e).length ≤ 50 := by
        rw [save_conversation_eq_rtake, length_rtake]
        omega
      rw [List.foldl_cons, ih _ hlen, save_conversation_eq_rtake, rtake_append_rtake]
      simp

/-- Claim C1: for every sequence of saved turns, after each call to
`save_conversation` the per-user conversation log has length at most 50 and,
once the cap is exceeded, holds exactly the most recent 50 turns (oldest
dropped first). Instantiating `es` at every prefix of a turn sequence gives
the state after each call. -/
theorem conversation_log_fifo_cap (es : List ConvEntry) :
    es.foldl save_conversation [] = es.rtake 50
    ∧ (es.foldl save_conversation []).length = min es.length 50 := by
  have h := foldl_save_eq_rtake es [] (by simp)
  simp only [List.nil_append] at h
  refine ⟨h, ?_⟩
  rw [h, length_rtake, Nat.min_comm]

/-- A user profile dict as created by `start_command` (src/main.py 296-304).
`health_interests` is only ever rendered into prompt text, so it is kept as
its rendered string (`start_command` initializes it to the empty list,
rendered "[]"). -/
structure Profile where
  name : String
  username : String
  join_date : String
  conversation_count : Nat
  last_active : String
  health_interests : String
deriving DecidableEq, Repr

/-- What `wikipediaapi`'s `wiki_wiki.page(term)` yields, as consumed by
`search_wikipedia_medical`: existence flag, title, summary, full url. -/
structure WikiPage where
  page_exists : Bool
  title : String
  summary : String
  fullurl : String
deriving DecidableEq, Repr

/-- One search-result dict built by `search_wikipedia_medical`
(src/main.py 125-130). -/
structure WikiResult where
  title : String
  url : String
  preview : String
  full_summary : String
deriving DecidableEq, Repr

/-- The external collaborators: the Gemini call (`generate_content`, which
raises on failure, hence `Except Unit`), the Wikipedia page lookup, the
clock (`datetime.now().isoformat()`) and the uptime string rendered by
`show_bot_info`. -/
structure Env where
  genAI : String → Except Unit String
  page : String → WikiPage
  now : String
  uptime : String

/-- The mutable state of `UltimateRagnosisAI` read by the handlers:
`user_profiles` (string keys after `load_data`, int keys at runtime),
`conversation_memory` (int keys), and the `total_queries` counter. -/
structure Bot where
  user_profiles : List (PyKey × Profile)
  conversation_memory : List (Int × List ConvEntry)
  total_queries : Nat
deriving DecidableEq, Repr

/-- The six title variants probed by `search_wikipedia_medical`
(src/main.py 109-116). -/
def medical_terms (query : String) : List String :=
  [query, query ++ " (medicine)", query ++ " disease", query ++ " symptoms",
    query ++ " treatment", query ++ " diagnosis"]

/-- `search_wikipedia_medical` (src/main.py 104-136): probe the six title
variants until `max_results` hits are collected, keeping pages that exist
with a summary over 100 characters; previews truncate at 300 characters.
The network call is the `env.page` oracle (a network exception, which the
Python catches into `[]`, cannot occur in this total model). -/
def search_wikipedia_medical (env : Env) (query : String) (max_results : Nat := 3) :
    List WikiResult :=
  let search_results := (medical_terms query).foldl (fun acc term =>
    if max_results ≤ acc.length then acc
    else
      let page := env.page term
      if page.page_exists && 100 < page.summary.length then
        let preview := if 300 < page.summary.length then page.summary.take 300 ++ "..."
          else page.summary
        acc ++ [{ title := page.title, url := page.fullurl, preview := preview,
                  full_summary := page.summary.take 800 }]
      else acc) []
  search_results.take max_results

/-- `get_conversation_history` (src/main.py 158-164): `[-limit:]` of the
per-user list, `[]` when the user has no entry. -/
def get_conversation_history (mem : List (Int × List ConvEntry)) (user_id : Int)
    (limit : Nat := 10) : List ConvEntry :=
  ((alookup user_id mem).getD []).rtake limit

/-- The keyword list guarding the Wikipedia search (src/main.py 183-184). -/
def medical_keywords : List String :=
  ["disease", "symptom", "treatment", "medical", "health", "diagnosis",
    "medicine", "pain", "illness", "condition"]

/-- Python `kw in s`: substring test, via character-list infixes. -/
def strContainsSub (s sub : String) : Bool :=
  decide (sub.toList <:+: s.toList)

/-- `any(keyword in user_message.lower() for keyword in [...])`
(src/main.py 183-184). -/
def hasMedicalKeyword (user_message : String) : Bool :=
  medical_keywords.any (fun k => strContainsSub (pyLower user_message) k)

/-- The conversation-history block of the prompt (src/main.py 174-179). -/
def history_text (history : List ConvEntry) : String :=
  if history.isEmpty then ""
  else history.foldl
    (fun acc msg => acc ++ "User: " ++ msg.user ++ "\nAI: " ++ msg.ai ++ "\n\n")
    "Previous conversation:\n"

/-- The Wikipedia block of the prompt (src/main.py 188-192). -/
def wiki_context (results : List WikiResult) : String :=
  if results.isEmpty then ""
  else (results.enumFrom 1).foldl
    (fun acc p => acc ++ toString p.1 ++ ". " ++ p.2.title ++ ": " ++ p.2.preview ++ "\n")
    "\n\n📚 RELEVANT MEDICAL INFORMATION FROM WIKIPEDIA:\n"

/-- The profile block of the prompt (src/main.py 195-201), with the
`dict.get` defaults for a user with no profile. -/
def profile_text (profile : Option Profile) : String :=
  "\n        User Profile:\n        - Name: "
    ++ (profile.map Profile.name).getD "Friend"
    ++ "\n        - Conversation Count: "
    ++ toString ((profile.map Profile.conversation_count).getD 0)
    ++ "\n        - Health Interests: "
    ++ (profile.map Profile.health_interests).getD "General wellness"
    ++ "\n        "

/-- The prompt string assembled by `get_intelligent_response`
(src/main.py 172-243): last-8 history, keyword-guarded Wikipedia context,
profile block, the quoted user message, the context tag and the fixed
guideline text. -/
def build_prompt (env : Env) (b : Bot) (user_id : Int) (user_message : String)
    (context : String) : String :=
  let history := get_conversation_history b.conversation_memory user_id 8
  let wikipedia_results :=
    if hasMedicalKeyword user_message then search_wikipedia_medical env user_message 3
    else []
  let profile := alookup (PyKey.pint user_id) b.user_profiles
  "\n        You are Ragnosis AI - an intelligent, empathetic, and highly capable medical AI assistant. \n        You're having a natural, flowing conversation with a user about their health concerns.\n\n        USER PROFILE:\n        "
    ++ profile_text profile
    ++ "\n\n        CONVERSATION HISTORY (most recent first):\n        "
    ++ history_text history
    ++ "\n\n        "
    ++ wiki_context wikipedia_results
    ++ "\n\n        CURRENT USER MESSAGE:\n        \""
    ++ user_message
    ++ "\"\n\n        CONTEXT: "
    ++ context
    ++ "\n\n        RESPONSE GUIDELINES:\n        1. 🎯 Be NATURAL and CONVERSATIONAL - like a caring doctor friend\n        2. 💡 Show genuine INTEREST and EMPATHY\n        3. 🧠 Provide INSIGHTFUL medical perspective when relevant\n        4. ❓ Ask thoughtful FOLLOW-UP questions to understand better\n        5. 🌟 Use APPROPRIATE emojis to enhance communication\n        6. 📚 Cite Wikipedia information when relevant\n        7. 🔄 Reference previous conversation naturally\n        8. 💪 EMPOWER and ENCOURAGE the user\n        9. 🏥 Always include medical disclaimer for serious topics\n        10. 🎨 Be CREATIVE in health discussions\n\n        MEDICAL DISCLAIMER (include when discussing symptoms/treatments):\n        \"💡 Remember: I'm an AI assistant for informational purposes. Always consult healthcare professionals for medical advice.\"\n\n        CONVERSATION FLOW:\n        - Acknowledge their message naturally\n        - Provide value (insight, information, or emotional support)\n        - Ask a relevant follow-up question\n        - Keep the conversation flowing naturally\n\n        Response length: 4-7 sentences. Be engaging but concise.\n        "

/-- The dict-level part of `save_conversation` (src/main.py 140-152):
create the user's list when absent, append the turn dict, trim to 50. -/
def save_conversation_mem (mem : List (Int × List ConvEntry)) (user_id : Int)
    (user_message ai_response now conv_type : String) : List (Int × List ConvEntry) :=
  let log := (alookup user_id mem).getD []
  aset user_id
    (save_conversation log
      { user := user_message, ai := ai_response, timestamp := now, type := conv_type })
    mem

/-- The canned fallback reply of `get_intelligent_response`
(src/main.py 259). -/
def ai_fallback_text : String :=
  "🤖 I'm here and listening! Tell me more about how you're feeling today. 💬"

/-- `get_intelligent_response` (src/main.py 166-259): bump `total_queries`,
build the prompt, call Gemini; on success strip the reply and save the turn,
on any exception return the canned fallback text without saving. -/
def get_intelligent_response (env : Env) (b : Bot) (user_id : Int)
    (user_message : String) (context : String := "general") : Bot × String :=
  let b := { b with total_queries := b.total_queries + 1 }
  let prompt := build_prompt env b user_id user_message context
  match env.genAI prompt with
  | Except.ok response =>
      let ai_response := pyStrip response
      let mem := save_conversation_mem b.conversation_memory user_id user_message
        ai_response env.now context
      ({ b with conversation_memory := mem }, ai_response)
  | Except.error _ => (b, ai_fallback_text)

/-- Claim C3: when the generative-AI backend call fails (raises), the user
still gets a reply: `get_intelligent_response` returns the canned fallback
text instead of propagating the error. -/
theorem ai_failure_returns_fallback (env : Env) (b : Bot) (user_id : Int)
    (user_message context : String)
    (h : env.genAI (build_prompt env { b with total_queries := b.total_queries + 1 }
      user_id user_message context) = Except.error ()) :
    (get_intelligent_response env b user_id user_message context).2
      = ai_fallback_text := by
  simp only [get_intelligent_response, h]

/-- An environment whose Gemini call always fails and whose Wikipedia has no
pages. -/
def failEnv : Env :=
  { genAI := fun _ => Except.error (), page := fun _ => ⟨false, "", "", ""⟩,
    now := "2025-01-01T00:00:00", uptime := "0:00:01" }

/-- Witness for C3 at a concrete input. -/
theorem ai_failure_returns_fallback_witness :
    (get_intelligent_response failEnv ⟨[], [], 0⟩ 7 "hello" "general").2
      = ai_fallback_text :=
  ai_failure_returns_fallback failEnv ⟨[], [], 0⟩ 7 "hello" "general" rfl

/-- Claim C6 (amended): prompt construction is a deterministic function of
the session snapshot, the incoming message and the Wikipedia page-lookup
results: environments with the same page oracle render the same prompt, and
when the message carries no medical keyword the prompt is independent of the
lookup altogether. -/
theorem build_prompt_deterministic (e₁ e₂ : Env) (b : Bot) (user_id : Int)
    (user_message context : String)
    (h : e₁.page = e₂.page ∨ hasMedicalKeyword user_message = false) :
    build_prompt e₁ b user_id user_message context
      = build_prompt e₂ b user_id user_message context := by
  rcases h with h | h
  · unfold build_prompt search_wikipedia_medical
    rw [h]
  · unfold build_prompt
    rw [h]
    simp

/-- A Wikipedia oracle with no pages at all. -/
def pageOracleA : String → WikiPage := fun _ => ⟨false, "", "", ""⟩

/-- A summary longer than 100 characters, so `search_wikipedia_medical`
keeps the page. -/
def painSummary : String :=
  "Pain is a distressing feeling often caused by intense or damaging stimuli. It motivates withdrawal from damaging situations."

/-- A Wikipedia oracle that knows one page, for the exact title "pain". -/
def pageOracleB : String → WikiPage := fun t =>
  if t = "pain" then ⟨true, "Pain", painSummary, "https://en.wikipedia.org/wiki/Pain"⟩
  else ⟨false, "", "", ""⟩

def envA : Env :=
  { genAI := fun _ => Except.error (), page := pageOracleA,
    now := "2025-01-01T00:00:00", uptime := "0:00:01" }

def envB : Env :=
  { genAI := fun _ => Except.error (), page := pageOracleB,
    now := "2025-01-01T00:00:00", uptime := "0:00:01" }

/-- Counterexample to C6 as stated: with the session snapshot (history,
profile) and the message "pain" all fixed, two runs differing only in what
the external Wikipedia lookup returns produce different prompt strings, so
the prompt does depend on an external lookup. -/
theorem prompt_depends_on_wikipedia :
    hasMedicalKeyword "pain" = true
    ∧ build_prompt envA ⟨[], [], 0⟩ 7 "pain" "smart_chat"
        ≠ build_prompt envB ⟨[], [], 0⟩ 7 "pain" "smart_chat" := by
  constructor
  · decide
  · decide

/-- Witness for C6's amended theorem: a message with no medical keyword
renders the same prompt under the two different Wikipedia oracles. -/
theorem build_prompt_deterministic_witness :
    build_prompt envA ⟨[], [], 0⟩ 7 "good morning" "smart_chat"
      = build_prompt envB ⟨[], [], 0⟩ 7 "good morning" "smart_chat" :=
  build_prompt_deterministic envA envB ⟨[], [], 0⟩ 7 "good morning" "smart_chat"
    (Or.inr (by decide))

/-- The ConversationHandler states (src/main.py 53). -/
inductive ConvState where
  | MAIN_MENU
  | CHAT_MODE
  | DIAGNOSIS_MODE
  | EMOTIONAL_SUPPORT
  | HEALTH_LIBRARY
deriving DecidableEq, Repr

/-- The Python exception a handler can raise: the unguarded dict index in
`start_smart_chat` (src/main.py 376). -/
inductive PyError where
  | keyError
deriving DecidableEq, Repr

/-- What one handler invocation produces: the mutated bot state, the texts
sent with `reply_text` in order, the returned ConversationHandler state, and
whether `get_intelligent_response` was invoked on the incoming message
(the free-text AI path). Keyboards are presentation only and not modelled. -/
structure StepResult where
  bot : Bot
  replies : List String
  state : ConvState
  freeTextAI : Bool
deriving Repr

/-- `get_follow_up_questions` (src/main.py 261-288). -/
def get_follow_up_questions (user_message : String) : List String :=
  let question_lower := pyLower user_message
  if ["symptom", "feel", "pain", "hurt", "ache"].any
      (fun w => strContainsSub question_lower w) then
    ["How long have you been experiencing this?",
      "Have you noticed any triggers?",
      "What makes it better or worse?"]
  else if ["diagnos", "test", "result"].any
      (fun w => strContainsSub question_lower w) then
    ["Have you consulted a doctor about this?",
      "What tests have you had so far?",
      "When did you first notice these symptoms?"]
  else if ["treat", "medic", "therapy"].any
      (fun w => strContainsSub question_lower w) then
    ["What treatments have you tried?",
      "Are you currently taking any medications?",
      "Have you had any side effects?"]
  else
    ["Would you like me to explain anything in more detail?",
      "Is there anything else you'd like to know?",
      "How are you feeling about this information?"]

/-- The menu text sent by `return_to_main_menu` (src/main.py 774-788). -/
def main_menu_text : String :=
  "\n🏠 **Main Menu** 🎯\n\nChoose how you'd like to interact:\n\n🧠 **Smart Chat** - General health conversations\n🔍 **Symptom Checker** - Detailed symptom analysis  \n💭 **Emotional Support** - Mental wellness guidance\n📚 **Health Library** - Medical information\n💊 **Medication Info** - Drug information\n🌟 **Wellness Coach** - Lifestyle guidance\n📊 **Health Report** - Personalized insights\n\n**Select an option below:** 👇\n        "

/-- `return_to_main_menu` (src/main.py 772-799): static menu text, state
MAIN_MENU, nothing else touched. -/
def return_to_main_menu (b : Bot) : StepResult :=
  { bot := b, replies := [main_menu_text], state := ConvState.MAIN_MENU,
    freeTextAI := false }

/-- The Smart Chat welcome (src/main.py 381-400). -/
def smart_chat_welcome : String :=
  "\n🧠 **Smart Chat Mode Activated!** 💫\n\nI'm now in intelligent conversation mode! I'll:\n\n• Remember our previous chats\n• Provide medically accurate information  \n• Search Wikipedia when needed\n• Offer emotional support\n• Ask relevant follow-up questions\n\n**Just start talking!** Tell me about:\n- Any health concerns\n- Symptoms you're experiencing\n- Medical questions\n- How you're feeling\n- Or anything health-related!\n\nI'm here to listen and help! 💬\n        "

/-- The line appended to the welcome when history is non-empty
(src/main.py 403). -/
def smart_chat_memory_line : String :=
  "\n\n📝 **I remember our previous conversation** - let's continue!"

/-- `start_smart_chat` (src/main.py 371-413): the unguarded
`self.user_profiles[user_id]['conversation_count'] += 1` raises `KeyError`
when the integer user id has no in-memory profile; otherwise bump the
count, refresh `last_active`, and send the welcome (with the memory line
when the user's history is non-empty). -/
def start_smart_chat (env : Env) (b : Bot) (user_id : Int) :
    Except PyError StepResult :=
  match alookup (PyKey.pint user_id) b.user_profiles with
  | none => Except.error PyError.keyError
  | some p =>
      let p := { p with conversation_count := p.conversation_count + 1,
                        last_active := env.now }
      let b := { b with user_profiles := aset (PyKey.pint user_id) p b.user_profiles }
      let history := get_conversation_history b.conversation_memory user_id 5
      let welcome_msg := smart_chat_welcome
        ++ (if history.isEmpty then "" else smart_chat_memory_line)
      Except.ok { bot := b, replies := [welcome_msg], state := ConvState.CHAT_MODE,
                  freeTextAI := false }

/-- The symptom-checker intro (src/main.py 494-506). -/
def symptom_checker_intro : String :=
  "\n🔍 **Advanced Symptom Checker** 🩺\n\nI'll help you understand your symptoms better. Please describe:\n\n• What you're experiencing\n• When it started\n• How severe it is (1-10 scale)\n• Any patterns or triggers\n• Other associated symptoms\n\n**Please describe your main concern:** 👇\n        "

/-- `start_symptom_checker` (src/main.py 490-517). -/
def start_symptom_checker (b : Bot) : StepResult :=
  { bot := b, replies := [symptom_checker_intro], state := ConvState.DIAGNOSIS_MODE,
    freeTextAI := false }

/-- The emotional-support intro (src/main.py 554-566). -/
def emotional_support_intro : String :=
  "\n💭 **Emotional Support Mode** 🌈\n\nYou're in a safe, confidential space. I'm here to:\n\n• Listen without judgment\n• Provide emotional support\n• Offer coping strategies\n• Help with stress management\n• Guide mindfulness exercises\n\n**What's on your mind today?** 💬\n        "

/-- `start_emotional_support` (src/main.py 550-577). -/
def start_emotional_support (b : Bot) : StepResult :=
  { bot := b, replies := [emotional_support_intro],
    state := ConvState.EMOTIONAL_SUPPORT, freeTextAI := false }

/-- The health-library intro (src/main.py 610-623). -/
def health_library_intro : String :=
  "\n📚 **Health Knowledge Library** 🏥\n\nI can provide evidence-based information on:\n\n• Diseases & Conditions\n• Symptoms & Diagnosis\n• Treatments & Medications\n• Prevention & Wellness\n• Mental Health Topics\n• Nutrition & Exercise\n\n**What would you like to learn about?** 🔍\n        "

/-- `start_health_library` (src/main.py 606-634). -/
def start_health_library (b : Bot) : StepResult :=
  { bot := b, replies := [health_library_intro], state := ConvState.HEALTH_LIBRARY,
    freeTextAI := false }

/-- The medication-info text (src/main.py 664-667). -/
def medication_info_text : String :=
  "💊 **Medication Information**\n\nWhat medication would you like to know about?\n\nYou can ask about:\n• Uses and indications\n• Side effects\n• Dosage information\n• Interactions\n• Precautions"

/-- The wellness-coach text (src/main.py 673-676). -/
def wellness_coach_text : String :=
  "🌟 **Wellness Coach Mode** 💪\n\nLet's work on your overall health and wellness!\n\nI can help with:\n• Nutrition guidance\n• Exercise planning\n• Stress management\n• Sleep optimization\n• Habit building\n• Goal setting"

/-- The static reply of `generate_health_report` when history is short
(src/main.py 686-691). -/
def report_needs_history_text : String :=
  "📊 **Let's build your health profile first!**\n\nChat with me a bit more in **Smart Chat Mode** so I can create a truly personalized health report for you! 🎯"

/-- The report fallback when the Gemini call raises (src/main.py 728-733). -/
def report_fallback_text : String :=
  "📊 **Your Health Snapshot** 🌟\n\nBased on our conversations, you're taking proactive steps toward better health! Keep up the great work of being engaged with your wellbeing. The more we communicate, the more personalized my insights become! 💪"

/-- Python `"\n".join`. -/
def joinLines : List String → String
  | [] => ""
  | [s] => s
  | s :: t => s ++ "\n" ++ joinLines t

/-- The report prompt (src/main.py 699-717). -/
def report_prompt_of (conversation_text : String) : String :=
  "\n        Create a COMPREHENSIVE PERSONALIZED HEALTH REPORT based on this conversation history:\n\n        "
    ++ conversation_text
    ++ "\n\n        Create an ULTIMATE HEALTH REPORT with these sections:\n\n        🎯 **Health Summary** (2-3 sentence overview)\n        🔍 **Key Observations** (patterns and trends noticed)\n        💡 **Important Insights** (significant health observations)\n        🚀 **Growth Opportunities** (areas for improvement)\n        🌟 **Health Strengths** (what they're doing well)\n        📋 **Actionable Steps** (specific recommendations)\n        🏆 **Wellness Goals** (suggested health goals)\n        💝 **Encouragement & Support** (motivational message)\n\n        Tone: Warm, professional, empowering. Use emojis naturally. 400-500 words.\n        Be specific and reference actual conversation content when possible.\n        "

/-- `generate_health_report` (src/main.py 680-736): with fewer than three
remembered turns, a fixed static nudge and back to MAIN_MENU with nothing
else touched and no AI call; otherwise build the report prompt over the
last 20 turns and call Gemini, falling back to a canned snapshot text on
exception. -/
def generate_health_report (env : Env) (b : Bot) (user_id : Int) : StepResult :=
  let history := get_conversation_history b.conversation_memory user_id 20
  if history.length < 3 then
    { bot := b, replies := [report_needs_history_text], state := ConvState.MAIN_MENU,
      freeTextAI := false }
  else
    let conversation_text := joinLines
      (history.map (fun msg => "User: " ++ msg.user ++ "\nAI: " ++ msg.ai))
    match env.genAI (report_prompt_of conversation_text) with
    | Except.ok response =>
        { bot := b,
          replies := ["📊 **Your Comprehensive Health Report** 🎉\n\n" ++ pyStrip response],
          state := ConvState.MAIN_MENU, freeTextAI := false }
    | Except.error _ =>
        { bot := b, replies := [report_fallback_text], state := ConvState.MAIN_MENU,
          freeTextAI := false }

/-- `show_bot_info` (src/main.py 738-770): the informational display; the
only reader of `total_queries`. -/
def show_bot_info (env : Env) (b : Bot) (user_id : Int) : StepResult :=
  let user_profile := alookup (PyKey.pint user_id) b.user_profiles
  let info_text :=
    "\n🤖 **Ragnosis AI - System Information** 📊\n\n**Your Profile:**\n👤 Name: "
      ++ (user_profile.map Profile.name).getD "Friend"
      ++ "\n📅 Member Since: "
      ++ (user_profile.map Profile.join_date).getD "Recently"
      ++ "\n💬 Conversations: "
      ++ toString ((user_profile.map Profile.conversation_count).getD 0)
      ++ "\n\n**System Status:**\n🕒 Uptime: "
      ++ env.uptime
      ++ "\n📈 Total Queries: "
      ++ toString b.total_queries
      ++ "\n👥 Active Users: "
      ++ toString b.user_profiles.length
      ++ "\n💾 Memory: "
      ++ toString (b.conversation_memory.foldl (fun acc p => acc + p.2.length) 0)
      ++ " messages\n\n**Features:**\n• Intelligent conversation memory\n• Wikipedia medical research\n• Emotional support system\n• Symptom analysis\n• Health education library\n• Wellness coaching\n\n**Medical Disclaimer:**\n💡 I'm an AI assistant for informational purposes. Always consult healthcare professionals for medical advice.\n        "
  { bot := b, replies := [info_text], state := ConvState.MAIN_MENU,
    freeTextAI := false }

/-- The redirect notice for unrecognized main-menu text (src/main.py 366). -/
def chat_redirect_text : String :=
  "💬 I see you want to chat! Let me switch to **Smart Chat Mode** for our conversation. 🧠"

/-- `handle_main_menu` (src/main.py 345-369): exact-label dispatch over the
eight menu buttons; any other text sends the redirect notice and enters
Smart Chat. -/
def handle_main_menu (env : Env) (b : Bot) (user_id : Int) (text : String) :
    Except PyError StepResult :=
  if text = "🧠 Smart Chat" then start_smart_chat env b user_id
  else if text = "🔍 Symptom Checker" then Except.ok (start_symptom_checker b)
  else if text = "💭 Emotional Support" then Except.ok (start_emotional_support b)
  else if text = "📚 Health Library" then Except.ok (start_health_library b)
  else if text = "💊 Medication Info" then
    match start_smart_chat env b user_id with
    | Except.error e => Except.error e
    | Except.ok r => Except.ok { r with replies := medication_info_text :: r.replies }
  else if text = "🌟 Wellness Coach" then
    match start_smart_chat env b user_id with
    | Except.error e => Except.error e
    | Except.ok r => Except.ok { r with replies := wellness_coach_text :: r.replies }
  else if text = "📊 Health Report" then Except.ok (generate_health_report env b user_id)
  else if text = "ℹ️ Bot Info" then Except.ok (show_bot_info env b user_id)
  else
    match start_smart_chat env b user_id with
    | Except.error e => Except.error e
    | Except.ok r => Except.ok { r with replies := chat_redirect_text :: r.replies }

/-- The numbered follow-up block of `handle_chat_message`
(src/main.py 474-477). -/
def follow_up_block (follow_ups : List String) : String :=
  if follow_ups.isEmpty then ""
  else ((follow_ups.take 2).enumFrom 1).foldl
    (fun acc p => acc ++ toString p.1 ++ ". " ++ p.2 ++ "\n")
    "💭 **Follow-up Questions:**\n"

/-- `handle_chat_message` (src/main.py 415-488): six exact-match quick
actions checked first; anything else goes to `get_intelligent_response`
with context "smart_chat" and is answered together with up to two
follow-up questions. -/
def handle_chat_message (env : Env) (b : Bot) (user_id : Int) (user_message : String) :
    Except PyError StepResult :=
  if user_message = "🏠 Main Menu" then Except.ok (return_to_main_menu b)
  else if user_message = "🔍 Analyze Symptoms" then
    Except.ok
      { bot := b,
        replies := ["🔍 **Symptom Analysis Mode**\n\nPlease describe your symptoms in detail..."],
        state := ConvState.CHAT_MODE, freeTextAI := false }
  else if user_message = "💊 Medication Query" then
    Except.ok
      { bot := b,
        replies := ["💊 **Medication Information**\n\nWhat medication would you like to know about?"],
        state := ConvState.CHAT_MODE, freeTextAI := false }
  else if user_message = "📚 Research Topic" then
    Except.ok
      { bot := b,
        replies := ["📚 **Health Research**\n\nWhat health topic would you like me to research?"],
        state := ConvState.CHAT_MODE, freeTextAI := false }
  else if user_message = "💭 Emotional Check" then
    Except.ok
      { bot := b,
        replies := ["💭 **Emotional Check-in**\n\nHow are you feeling emotionally today?"],
        state := ConvState.CHAT_MODE, freeTextAI := false }
  else if user_message = "🔄 New Topic" then
    Except.ok
      { bot := b,
        replies := ["🔄 **New Topic**\n\nWhat would you like to discuss now?"],
        state := ConvState.CHAT_MODE, freeTextAI := false }
  else
    let r := get_intelligent_response env b user_id user_message "smart_chat"
    let response_text := r.2 ++ "\n\n" ++ follow_up_block (get_follow_up_questions user_message)
    Except.ok { bot := r.1, replies := [response_text], state := ConvState.CHAT_MODE,
                freeTextAI := true }

/-- `handle_diagnosis_message` (src/main.py 519-548): two exact-match
controls, then free text to `get_intelligent_response` with context
"symptom_analysis". -/
def handle_diagnosis_message (env : Env) (b : Bot) (user_id : Int)
    (user_message : String) : Except PyError StepResult :=
  if user_message = "🏠 Main Menu" then Except.ok (return_to_main_menu b)
  else if user_message = "🧠 Switch to Chat" then
    match start_smart_chat env b user_id with
    | Except.error e => Except.error e
    | Except.ok r => Except.ok { r with state := ConvState.CHAT_MODE }
  else
    let r := get_intelligent_response env b user_id user_message "symptom_analysis"
    Except.ok { bot := r.1, replies := [r.2], state := ConvState.DIAGNOSIS_MODE,
                freeTextAI := true }

/-- `handle_emotional_support` (src/main.py 579-604). -/
def handle_emotional_support (env : Env) (b : Bot) (user_id : Int)
    (user_message : String) : Except PyError StepResult :=
  if user_message = "🏠 Main Menu" then Except.ok (return_to_main_menu b)
  else if user_message = "🧠 Switch to Chat" then
    match start_smart_chat env b user_id with
    | Except.error e => Except.error e
    | Except.ok r => Except.ok { r with state := ConvState.CHAT_MODE }
  else
    let r := get_intelligent_response env b user_id user_message "emotional_support"
    Except.ok { bot := r.1, replies := [r.2], state := ConvState.EMOTIONAL_SUPPORT,
                freeTextAI := true }

/-- `handle_health_library` (src/main.py 636-660). -/
def handle_health_library (env : Env) (b : Bot) (user_id : Int)
    (user_message : String) : Except PyError StepResult :=
  if user_message = "🏠 Main Menu" then Except.ok (return_to_main_menu b)
  else if user_message = "🧠 Switch to Chat" then
    match start_smart_chat env b user_id with
    | Except.error e => Except.error e
    | Except.ok r => Except.ok { r with state := ConvState.CHAT_MODE }
  else
    let r := get_intelligent_response env b user_id user_message "health_library"
    Except.ok { bot := r.1, replies := [r.2], state := ConvState.HEALTH_LIBRARY,
                freeTextAI := true }

/-- The per-state text dispatch wired by the ConversationHandler
(src/main.py 860-876). -/
def handleTextMessage (env : Env) (b : Bot) (st : ConvState) (user_id : Int)
    (text : String) : Except PyError StepResult :=
  match st with
  | ConvState.MAIN_MENU => handle_main_menu env b user_id text
  | ConvState.CHAT_MODE => handle_chat_message env b user_id text
  | ConvState.DIAGNOSIS_MODE => handle_diagnosis_message env b user_id text
  | ConvState.EMOTIONAL_SUPPORT => handle_emotional_support env b user_id text
  | ConvState.HEALTH_LIBRARY => handle_health_library env b user_id text

/-- `load_data`'s profile branch (src/main.py 70-74): `json.load` leaves the
dict keys as the strings of the JSON file. -/
def load_profiles (file : List (String × Profile)) : List (PyKey × Profile) :=
  file.map (fun kv => (PyKey.pstr kv.1, kv.2))

/-- `load_data`'s memory branch (src/main.py 76-81): keys go through
`int(k)`. Persisted keys are the decimal renderings of int user ids;
a non-numeric key, on which Python's `int` would raise, is dropped by this
total model. -/
def load_memory (file : List (String × List ConvEntry)) :
    List (Int × List ConvEntry) :=
  file.filterMap (fun kv => (kv.1.toInt?).map (fun n => (n, kv.2)))

/-- The bot state right after `__init__` ran `load_data`
(src/main.py 56-65). -/
def loadedBot (pf : List (String × Profile)) (mf : List (String × List ConvEntry)) :
    Bot :=
  { user_profiles := load_profiles pf, conversation_memory := load_memory mf,
    total_queries := 0 }

/-- The `/menu` entry point: `CommandHandler("menu", return_to_main_menu)`
(src/main.py 857, 880) sends the menu and enters MAIN_MENU without creating
a profile. -/
def menu_command (b : Bot) : StepResult := return_to_main_menu b

theorem alookup_load_profiles_pint (pf : List (String × Profile)) (user_id : Int) :
    alookup (PyKey.pint user_id) (load_profiles pf) = none := by
  induction pf with
  | nil => rfl
  | cons kv t ih =>
      simp only [load_profiles, List.map_cons, alookup] at ih ⊢
      simpa using ih

/-- Claim C9: after `load_data`, profile keys are strings while
conversation-memory keys are ints (by construction of `load_memory`);
runtime lookups use the integer id, so a profile present only in the
persisted file is never found, and a user who reaches Smart Chat from the
`/menu` entry (which creates no profile) hits the unguarded
`conversation_count` increment: `start_smart_chat` raises KeyError. -/
theorem persisted_profile_unreachable_keyerror (env : Env)
    (pf : List (String × Profile)) (mf : List (String × List ConvEntry))
    (user_id : Int) :
    alookup (PyKey.pint user_id) (loadedBot pf mf).user_profiles = none
    ∧ (menu_command (loadedBot pf mf)).state = ConvState.MAIN_MENU
    ∧ (menu_command (loadedBot pf mf)).bot = loadedBot pf mf
    ∧ handleTextMessage env (loadedBot pf mf) ConvState.MAIN_MENU user_id
        "🧠 Smart Chat" = Except.error PyError.keyError := by
  have h := alookup_load_profiles_pint pf user_id
  refine ⟨h, rfl, rfl, ?_⟩
  show handle_main_menu env (loadedBot pf mf) user_id "🧠 Smart Chat" = _
  unfold handle_main_menu
  rw [if_pos rfl]
  unfold start_smart_chat
  rw [show (loadedBot pf mf).user_profiles = load_profiles pf from rfl, h]

/-- Claim C10: with fewer than three remembered turns for the user, the
health-report handler emits the fixed static nudge, performs no AI call
(the result does not depend on `env`), returns to MAIN_MENU and leaves the
bot state unchanged. -/
theorem health_report_short_history (env : Env) (b : Bot) (user_id : Int)
    (h : ((alookup user_id b.conversation_memory).getD []).length < 3) :
    generate_health_report env b user_id
      = { bot := b, replies := [report_needs_history_text],
          state := ConvState.MAIN_MENU, freeTextAI := false } := by
  have hc : (get_conversation_history b.conversation_memory user_id 20).length < 3 := by
    unfold get_conversation_history
    rw [length_rtake]
    omega
  unfold generate_health_report
  rw [if_pos hc]

/-- A two-turn memory for the C10 witness. -/
def shortMemBot : Bot :=
  { user_profiles := [],
    conversation_memory :=
      [(7, [{ user := "hi", ai := "hello", timestamp := "t1", type := "general" },
            { user := "ok", ai := "sure", timestamp := "t2", type := "general" }])],
    total_queries := 0 }

/-- Witness for C10 at a concrete two-turn history. -/
theorem health_report_short_history_witness :
    generate_health_report envA shortMemBot 7
      = { bot := shortMemBot, replies := [report_needs_history_text],
          state := ConvState.MAIN_MENU, freeTextAI := false } :=
  health_report_short_history envA shortMemBot 7 (by decide)

/-- Modelled from the spec: the symptom-toggle operation of the intake flow
("`symptoms`: ordered set of strings, insertion order = selection order,
duplicates toggle membership (selecting an already-selected symptom removes
it)"). The structured intake state machine is not part of src/ (main.py
implements only the five-menu chat flow), so the operation follows the
spec's words. -/
def toggleSymptom (label : String) (symptoms : List String) : List String :=
  if label ∈ symptoms then symptoms.erase label else symptoms ++ [label]

theorem toggleSymptom_nodup {label : String} {s : List String} (h : s.Nodup) :
    (toggleSymptom label s).Nodup := by
  unfold toggleSymptom
  split
  · exact h.erase label
  · rename_i hmem
    simp [List.nodup_append, h, hmem]

theorem mem_toggleSymptom {x label : String} {s : List String} (h : s.Nodup) :
    x ∈ toggleSymptom label s ↔ (if x = label then x ∉ s else x ∈ s) := by
  unfold toggleSymptom
  by_cases hx : x = label
  · subst hx
    by_cases hmem : x ∈ s
    · simp [hmem, h.mem_erase_iff]
    · simp [hmem]
  · by_cases hmem : label ∈ s
    · simp [hmem, hx, h.mem_erase_iff]
    · simp [hmem, hx]

theorem foldl_toggle_mem (ls : List String) :
    ∀ s : List String, s.Nodup → ∀ x : String,
      (x ∈ ls.foldl (fun acc l => toggleSymptom l acc) s
        ↔ ((x ∈ s) ↔ ls.count x % 2 = 0)) := by
  induction ls with
  | nil =>
      intro s _ x
      simp
  | cons l ls ih =>
      intro s h x
      rw [List.foldl_cons, ih (toggleSymptom l s) (toggleSymptom_nodup h) x,
        mem_toggleSymptom h]
      by_cases hx : x = l
      · subst hx
        have harith : (List.count x ls + 1) % 2 = 0 ↔ ¬ (List.count x ls % 2 = 0) := by
          omega
        rw [if_pos rfl, List.count_cons_self, harith]
        tauto
      · simp [hx, List.count_cons_of_ne hx]

/-- Claim C5 (spec-modelled): the symptom toggle is its own inverse on the
selection set — toggling the same label twice restores exactly the original
membership — and for every sequence of toggle events the resulting set is
the symmetric application of the toggles in order: a label is selected at
the end iff its initial state was flipped an odd number of times. -/
theorem toggle_involutive_and_fold (label : String) (s : List String)
    (h : s.Nodup) :
    (∀ x, x ∈ toggleSymptom label (toggleSymptom label s) ↔ x ∈ s)
    ∧ (∀ (ls : List String) (x : String),
        (x ∈ ls.foldl (fun acc l => toggleSymptom l acc) s
          ↔ ((x ∈ s) ↔ ls.count x % 2 = 0))) := by
  constructor
  · intro x
    rw [mem_toggleSymptom (toggleSymptom_nodup h), mem_toggleSymptom h]
    by_cases hx : x = label
    · subst hx
      simp
    · simp [hx]
  · intro ls x
    exact foldl_toggle_mem ls s h x

/-- Witness for C5 at a concrete one-symptom set. -/
theorem toggle_involutive_and_fold_witness :
    (∀ x, x ∈ toggleSymptom "fever" (toggleSymptom "fever" ["cough"])
      ↔ x ∈ ["cough"])
    ∧ (∀ (ls : List String) (x : String),
        (x ∈ ls.foldl (fun acc l => toggleSymptom l acc) ["cough"]
          ↔ ((x ∈ ["cough"]) ↔ ls.count x % 2 = 0))) :=
  toggle_involutive_and_fold "fever" ["cough"] (by decide)

/-- Modelled from the spec: the stages of the §4.1 intake flow (not present
in src/). -/
inductive IntakeStage where
  | SYMPTOMS
  | DEMOGRAPHICS
  | DURATION
  | SEVERITY
  | ANALYSIS
  | FOLLOW_UP
deriving DecidableEq, Repr

/-- Modelled from the spec: the §3 Session record of the intake flow (not
present in src/). -/
structure IntakeSession where
  stage : IntakeStage
  symptoms : List String
  age_group : Option String
  biological_sex : Option String
  duration : Option String
  severity : Option String
deriving DecidableEq, Repr

/-- Modelled from the spec: the §4.5 output actions relevant to the
SYMPTOMS stage. -/
inductive IntakeOutput where
  | ValidationError (msg : String)
  | Advanced
  | Toggled
deriving DecidableEq, Repr

/-- Modelled from the spec: the SYMPTOMS-stage step of the intake machine —
"done selecting" advances to DEMOGRAPHICS only when `symptoms` is
non-empty; with an empty set the machine stays in SYMPTOMS and emits a
validation message; any other input toggles a symptom. The machine is not
present in src/, so it follows the spec's words (§4.1). -/
def intakeStepSymptoms (s : IntakeSession) (input : String) :
    IntakeSession × IntakeOutput :=
  if input = "done selecting" then
    if s.symptoms.isEmpty then
      (s, IntakeOutput.ValidationError "Please select at least one symptom first.")
    else ({ s with stage := IntakeStage.DEMOGRAPHICS }, IntakeOutput.Advanced)
  else ({ s with symptoms := toggleSymptom input s.symptoms }, IntakeOutput.Toggled)

/-- Claim C4 (spec-modelled): attempting to advance past SYMPTOMS with an
empty symptom set is rejected: the step returns the session unchanged (so
the stage, still SYMPTOMS, and every other field are untouched) together
with a ValidationError output. -/
theorem symptoms_empty_advance_rejected (s : IntakeSession)
    (hstage : s.stage = IntakeStage.SYMPTOMS) (hempty : s.symptoms = []) :
    intakeStepSymptoms s "done selecting"
      = (s, IntakeOutput.ValidationError "Please select at least one symptom first.")
    ∧ (intakeStepSymptoms s "done selecting").1.stage = IntakeStage.SYMPTOMS := by
  have he : s.symptoms.isEmpty = true := by rw [hempty]; rfl
  unfold intakeStepSymptoms
  rw [if_pos rfl, if_pos he]
  exact ⟨rfl, hstage⟩

/-- An intake session sitting in SYMPTOMS with nothing selected. -/
def emptyIntake : IntakeSession :=
  { stage := IntakeStage.SYMPTOMS, symptoms := [], age_group := none,
    biological_sex := none, duration := none, severity := none }

/-- Witness for C4 at the concrete empty session. -/
theorem symptoms_empty_advance_rejected_witness :
    intakeStepSymptoms emptyIntake "done selecting"
      = (emptyIntake,
          IntakeOutput.ValidationError "Please select at least one symptom first.")
    ∧ (intakeStepSymptoms emptyIntake "done selecting").1.stage
        = IntakeStage.SYMPTOMS :=
  symptoms_empty_advance_rejected emptyIntake rfl rfl

/-- The eight main-menu labels (src/main.py 350-359). -/
def main_menu_labels : List String :=
  ["🧠 Smart Chat", "🔍 Symptom Checker", "💭 Emotional Support", "📚 Health Library",
    "💊 Medication Info", "🌟 Wellness Coach", "📊 Health Report", "ℹ️ Bot Info"]

/-- Claim C2 (amended): text in the main menu that is not one of the eight
menu labels is not answered with an AI free-text reply and does not stay in
the main menu: the handler sends the static redirect notice plus the Smart
Chat welcome and moves the dialogue to CHAT_MODE (provided the user has an
in-memory profile; without one the unguarded profile update raises
KeyError, see the C9 theorem). -/
theorem main_menu_fallthrough_to_chat (env : Env) (b : Bot) (user_id : Int)
    (text : String) (hlab : text ∉ main_menu_labels)
    (p : Profile) (hp : alookup (PyKey.pint user_id) b.user_profiles = some p) :
    (handleTextMessage env b ConvState.MAIN_MENU user_id text).map
        (fun r => (r.state, r.freeTextAI, r.replies))
      = Except.ok (ConvState.CHAT_MODE, false,
          [chat_redirect_text,
            smart_chat_welcome ++
              (if (get_conversation_history b.conversation_memory user_id 5).isEmpty
                then "" else smart_chat_memory_line)]) := by
  simp only [main_menu_labels, List.mem_cons, List.not_mem_nil, or_false,
    not_or] at hlab
  obtain ⟨h1, h2, h3, h4, h5, h6, h7, h8⟩ := hlab
  show (handle_main_menu env b user_id text).map _ = _
  unfold handle_main_menu
  rw [if_neg h1, if_neg h2, if_neg h3, if_neg h4, if_neg h5, if_neg h6, if_neg h7,
    if_neg h8]
  unfold start_smart_chat
  rw [hp]
  rfl

/-- A concrete in-memory profile and bot for the witnesses. -/
def cProfile : Profile :=
  { name := "Ada", username := "ada", join_date := "2025-01-01",
    conversation_count := 0, last_active := "2025-01-01", health_interests := "[]" }

def cBot : Bot :=
  { user_profiles := [(PyKey.pint 7, cProfile)], conversation_memory := [],
    total_queries := 0 }

/-- Witness for C2's amended theorem at the concrete text "hello". -/
theorem main_menu_fallthrough_to_chat_witness :
    (handleTextMessage envA cBot ConvState.MAIN_MENU 7 "hello").map
        (fun r => (r.state, r.freeTextAI, r.replies))
      = Except.ok (ConvState.CHAT_MODE, false,
          [chat_redirect_text,
            smart_chat_welcome ++
              (if (get_conversation_history cBot.conversation_memory 7 5).isEmpty
                then "" else smart_chat_memory_line)]) :=
  main_menu_fallthrough_to_chat envA cBot 7 "hello" (by decide) cProfile (by decide)

/-- Counterexample to C2 as stated: the unrecognized main-menu text "hello"
does not keep the user in the main-menu state — the handler returns
CHAT_MODE — and no AI free-text answer is produced for that message. -/
theorem main_menu_fallthrough_counterexample :
    (handleTextMessage envA cBot ConvState.MAIN_MENU 7 "hello").map
        (fun r => (r.state, r.freeTextAI))
      = Except.ok (ConvState.CHAT_MODE, false)
    ∧ ConvState.CHAT_MODE ≠ ConvState.MAIN_MENU := by
  exact ⟨rfl, by decide⟩

theorem generate_health_report_state (env : Env) (b : Bot) (user_id : Int) :
    (generate_health_report env b user_id).state = ConvState.MAIN_MENU := by
  unfold generate_health_report
  dsimp only
  split
  · rfl
  · split <;> rfl

theorem generate_health_report_freeTextAI (env : Env) (b : Bot) (user_id : Int) :
    (generate_health_report env b user_id).freeTextAI = false := by
  unfold generate_health_report
  dsimp only
  split
  · rfl
  · split <;> rfl

/-- The control tokens each state's handler matches literally before any
free-text interpretation (src/main.py 350-359, 423-460, 524-528, 584-588,
641-645). -/
def controlTokens : ConvState → List String
  | ConvState.MAIN_MENU => main_menu_labels
  | ConvState.CHAT_MODE =>
      ["🏠 Main Menu", "🔍 Analyze Symptoms", "💊 Medication Query",
        "📚 Research Topic", "💭 Emotional Check", "🔄 New Topic"]
  | ConvState.DIAGNOSIS_MODE => ["🏠 Main Menu", "🧠 Switch to Chat"]
  | ConvState.EMOTIONAL_SUPPORT => ["🏠 Main Menu", "🧠 Switch to Chat"]
  | ConvState.HEALTH_LIBRARY => ["🏠 Main Menu", "🧠 Switch to Chat"]

/-- The state each control token transitions to. -/
def controlNext : ConvState → String → ConvState
  | ConvState.MAIN_MENU, text =>
      if text = "🔍 Symptom Checker" then ConvState.DIAGNOSIS_MODE
      else if text = "💭 Emotional Support" then ConvState.EMOTIONAL_SUPPORT
      else if text = "📚 Health Library" then ConvState.HEALTH_LIBRARY
      else if text = "📊 Health Report" then ConvState.MAIN_MENU
      else if text = "ℹ️ Bot Info" then ConvState.MAIN_MENU
      else ConvState.CHAT_MODE
  | _, text =>
      if text = "🏠 Main Menu" then ConvState.MAIN_MENU else ConvState.CHAT_MODE

/-- Claim C7: in every dialogue state the recognized control tokens — the
literal button labels each handler matches — are tested by exact string
equality before any free-text interpretation: on a control token the
handler performs the corresponding control transition and never invokes the
free-text AI path (`get_intelligent_response`) on that message. The tokens
whose action goes through `start_smart_chat` presuppose an in-memory
profile, hence the profile hypothesis. -/
theorem control_tokens_before_free_text (env : Env) (b : Bot) (st : ConvState)
    (user_id : Int) (text : String) (htk : text ∈ controlTokens st)
    (p : Profile) (hp : alookup (PyKey.pint user_id) b.user_profiles = some p) :
    (handleTextMessage env b st user_id text).map (fun r => (r.state, r.freeTextAI))
      = Except.ok (controlNext st text, false) := by
  cases st <;>
    simp only [controlTokens, main_menu_labels, List.mem_cons, List.not_mem_nil,
      or_false] at htk
  case MAIN_MENU =>
    rcases htk with rfl | rfl | rfl | rfl | rfl | rfl | rfl | rfl <;>
      simp [handleTextMessage, handle_main_menu, start_smart_chat,
        start_symptom_checker, start_emotional_support, start_health_library,
        show_bot_info, controlNext, hp, Except.map,
        generate_health_report_state, generate_health_report_freeTextAI]
  case CHAT_MODE =>
    rcases htk with rfl | rfl | rfl | rfl | rfl | rfl <;>
      simp [handleTextMessage, handle_chat_message, return_to_main_menu,
        controlNext, Except.map]
  case DIAGNOSIS_MODE =>
    rcases htk with rfl | rfl <;>
      simp [handleTextMessage, handle_diagnosis_message, return_to_main_menu,
        start_smart_chat, controlNext, hp, Except.map]
  case EMOTIONAL_SUPPORT =>
    rcases htk with rfl | rfl <;>
      simp [handleTextMessage, handle_emotional_support, return_to_main_menu,
        start_smart_chat, controlNext, hp, Except.map]
  case HEALTH_LIBRARY =>
    rcases htk with rfl | rfl <;>
      simp [handleTextMessage, handle_health_library, return_to_main_menu,
        start_smart_chat, controlNext, hp, Except.map]

/-- Witness for C7 at a concrete control token. -/
theorem control_tokens_before_free_text_witness :
    (handleTextMessage envA cBot ConvState.DIAGNOSIS_MODE 7 "🏠 Main Menu").map
        (fun r => (r.state, r.freeTextAI))
      = Except.ok (controlNext ConvState.DIAGNOSIS_MODE "🏠 Main Menu", false) :=
  control_tokens_before_free_text envA cBot ConvState.DIAGNOSIS_MODE 7
    "🏠 Main Menu" (by decide) cProfile (by decide)

/-- The next dialogue state of a handler outcome. -/
def stateOf (r : Except PyError StepResult) : Except PyError ConvState :=
  r.map StepResult.state

/-- The reply texts of a handler outcome. -/
def repliesOf (r : Except PyError StepResult) : Except PyError (List String) :=
  r.map StepResult.replies

theorem build_prompt_tq (env : Env) (up : List (PyKey × Profile))
    (cm : List (Int × List ConvEntry)) (q : Nat) (user_id : Int)
    (msg ctx : String) :
    build_prompt env ⟨up, cm, q⟩ user_id msg ctx
      = build_prompt env ⟨up, cm, 0⟩ user_id msg ctx := rfl

theorem gir_tq (env : Env) (up : List (PyKey × Profile))
    (cm : List (Int × List ConvEntry)) (q₁ q₂ : Nat) (user_id : Int)
    (msg ctx : String) :
    (get_intelligent_response env ⟨up, cm, q₁⟩ user_id msg ctx).2
      = (get_intelligent_response env ⟨up, cm, q₂⟩ user_id msg ctx).2
    ∧ (get_intelligent_response env ⟨up, cm, q₁⟩ user_id msg ctx).1.conversation_memory
      = (get_intelligent_response env ⟨up, cm, q₂⟩ user_id msg ctx).1.conversation_memory := by
  unfold get_intelligent_response
  dsimp only
  rw [build_prompt_tq env up cm (q₁ + 1) user_id msg ctx,
    build_prompt_tq env up cm (q₂ + 1) user_id msg ctx]
  cases env.genAI (build_prompt env ⟨up, cm, 0⟩ user_id msg ctx) <;> exact ⟨rfl, rfl⟩

theorem start_smart_chat_eq (env : Env) (up : List (PyKey × Profile))
    (cm : List (Int × List ConvEntry)) (q : Nat) (user_id : Int) :
    start_smart_chat env ⟨up, cm, q⟩ user_id
      = match alookup (PyKey.pint user_id) up with
        | none => Except.error PyError.keyError
        | some p => Except.ok
            { bot := ⟨aset (PyKey.pint user_id)
                { p with conversation_count := p.conversation_count + 1,
                         last_active := env.now } up, cm, q⟩,
              replies := [smart_chat_welcome ++
                (if (get_conversation_history cm user_id 5).isEmpty then ""
                  else smart_chat_memory_line)],
              state := ConvState.CHAT_MODE, freeTextAI := false } := by
  unfold start_smart_chat
  dsimp only

theorem generate_health_report_tq (env : Env) (up : List (PyKey × Profile))
    (cm : List (Int × List ConvEntry)) (q₁ q₂ : Nat) (user_id : Int) :
    (generate_health_report env ⟨up, cm, q₁⟩ user_id).replies
      = (generate_health_report env ⟨up, cm, q₂⟩ user_id).replies := by
  unfold generate_health_report
  dsimp only
  split
  · rfl
  · split <;> rfl

/-- Claim C8: the process-wide `total_queries` counter is write-only with
respect to the dialogue logic: for any two counter values the handlers
choose the same next state for every message in every state, and the same
reply texts for every message except the informational Bot Info display —
the counter's only reader (src/main.py 753). -/
theorem total_queries_write_only (env : Env) (up : List (PyKey × Profile))
    (cm : List (Int × List ConvEntry)) (q₁ q₂ : Nat) (st : ConvState)
    (user_id : Int) (text : String) :
    stateOf (handleTextMessage env ⟨up, cm, q₁⟩ st user_id text)
      = stateOf (handleTextMessage env ⟨up, cm, q₂⟩ st user_id text)
    ∧ (¬ (st = ConvState.MAIN_MENU ∧ text = "ℹ️ Bot Info") →
        repliesOf (handleTextMessage env ⟨up, cm, q₁⟩ st user_id text)
          = repliesOf (handleTextMessage env ⟨up, cm, q₂⟩ st user_id text)) := by
  cases st
  case MAIN_MENU =>
    simp only [handleTextMessage]
    unfold handle_main_menu
    split_ifs with h1 h2 h3 h4 h5 h6 h7 h8
    · rw [start_smart_chat_eq env up cm q₁ user_id,
        start_smart_chat_eq env up cm q₂ user_id]
      cases alookup (PyKey.pint user_id) up <;> exact ⟨rfl, fun _ => rfl⟩
    · exact ⟨rfl, fun _ => rfl⟩
    · exact ⟨rfl, fun _ => rfl⟩
    · exact ⟨rfl, fun _ => rfl⟩
    · rw [start_smart_chat_eq env up cm q₁ user_id,
        start_smart_chat_eq env up cm q₂ user_id]
      cases alookup (PyKey.pint user_id) up <;> exact ⟨rfl, fun _ => rfl⟩
    · rw [start_smart_chat_eq env up cm q₁ user_id,
        start_smart_chat_eq env up cm q₂ user_id]
      cases alookup (PyKey.pint user_id) up <;> exact ⟨rfl, fun _ => rfl⟩
    · constructor
      · simp [stateOf, Except.map, generate_health_report_state]
      · intro _
        simp only [repliesOf, Except.map]
        rw [generate_health_report_tq env up cm q₁ q₂ user_id]
    · exact ⟨rfl, fun hnot => (hnot (by simp [h8])).elim⟩
    · rw [start_smart_chat_eq env up cm q₁ user_id,
        start_smart_chat_eq env up cm q₂ user_id]
      cases alookup (PyKey.pint user_id) up <;> exact ⟨rfl, fun _ => rfl⟩
  case CHAT_MODE =>
    simp only [handleTextMessage]
    unfold handle_chat_message
    split_ifs with h1 h2 h3 h4 h5 h6
    · exact ⟨rfl, fun _ => rfl⟩
    · exact ⟨rfl, fun _ => rfl⟩
    · exact ⟨rfl, fun _ => rfl⟩
    · exact ⟨rfl, fun _ => rfl⟩
    · exact ⟨rfl, fun _ => rfl⟩
    · exact ⟨rfl, fun _ => rfl⟩
    · refine ⟨rfl, fun _ => ?_⟩
      simp only [repliesOf, Except.map]
      rw [(gir_tq env up cm q₁ q₂ user_id text "smart_chat").1]
  case DIAGNOSIS_MODE =>
    simp only [handleTextMessage]
    unfold handle_diagnosis_message
    split_ifs with h1 h2
    · exact ⟨rfl, fun _ => rfl⟩
    · rw [start_smart_chat_eq env up cm q₁ user_id,
        start_smart_chat_eq env up cm q₂ user_id]
      cases alookup (PyKey.pint user_id) up <;> exact ⟨rfl, fun _ => rfl⟩
    · refine ⟨rfl, fun _ => ?_⟩
      simp only [repliesOf, Except.map]
      rw [(gir_tq env up cm q₁ q₂ user_id text "symptom_analysis").1]
  case EMOTIONAL_SUPPORT =>
    simp only [handleTextMessage]
    unfold handle_emotional_support
    split_ifs with h1 h2
    · exact ⟨rfl, fun _ => rfl⟩
    · rw [start_smart_chat_eq env up cm q₁ user_id,
        start_smart_chat_eq env up cm q₂ user_id]
      cases alookup (PyKey.pint user_id) up <;> exact ⟨rfl, fun _ => rfl⟩
    · refine ⟨rfl, fun _ => ?_⟩
      simp only [repliesOf, Except.map]
      rw [(gir_tq env up cm q₁ q₂ user_id text "emotional_support").1]
  case HEALTH_LIBRARY =>
    simp only [handleTextMessage]
    unfold handle_health_library
    split_ifs with h1 h2
    · exact ⟨rfl, fun _ => rfl⟩
    · rw [start_smart_chat_eq env up cm q₁ user_id,
        start_smart_chat_eq env up cm q₂ user_id]
      cases alookup (PyKey.pint user_id) up <;> exact ⟨rfl, fun _ => rfl⟩
    · refine ⟨rfl, fun _ => ?_⟩
      simp only [repliesOf, Except.map]
      rw [(gir_tq env up cm q₁ q₂ user_id text "health_library").1]

end Ragnosis
